import Mathlib

/-
Shallow embedding of the Pong game logic in `src/main.rs` (szdytom/mfight-ng).
All `f32` quantities are modelled as exact rationals; Rust's `f32::signum`
is modelled for the representable values (no `-0.0` or `NaN` in ℚ).
The graphics library (tetra) supplies only the rectangle-intersection test,
which is modelled by the standard strict axis-aligned overlap check.
-/

namespace Pong

/-- Constant `WINDOW_WIDTH: f32 = 640.0` from `src/main.rs`. -/
def WINDOW_WIDTH : ℚ := 640

/-- Constant `WINDOW_HEIGHT: f32 = 480.0` from `src/main.rs`. -/
def WINDOW_HEIGHT : ℚ := 480

/-- Constant `PADDLE_SPEED: f32 = 8.0` from `src/main.rs`. -/
def PADDLE_SPEED : ℚ := 8

/-- Constant `BALL_SPEED: f32 = 5.0` from `src/main.rs`. -/
def BALL_SPEED : ℚ := 5

/-- Constant `PADDLE_SPIN: f32 = 4.0` from `src/main.rs`. -/
def PADDLE_SPIN : ℚ := 4

/-- Constant `BALL_ACC: f32 = 0.05` from `src/main.rs`. -/
def BALL_ACC : ℚ := 1/20

/-- Rust `f32::signum`, restricted to the values a rational can represent:
`1` for non-negative inputs (Rust returns `1.0` for `+0.0`) and `-1` for
negative inputs. -/
def signum (x : ℚ) : ℚ := if x < 0 then -1 else 1

/-- A 2D vector, as `tetra::math::Vec2<f32>`. -/
structure Vec2 where
  x : ℚ
  y : ℚ
deriving DecidableEq

/-- `Entity` from `src/main.rs`. The owned `Texture` only ever contributes
its pixel dimensions to the game logic (`width`/`height`), so it is modelled
by those two numbers. -/
structure Entity where
  texWidth : ℚ
  texHeight : ℚ
  position : Vec2
  velocity : Vec2
deriving DecidableEq

/-- `Entity::width`: the texture's width. -/
def Entity.width (e : Entity) : ℚ := e.texWidth

/-- `Entity::height`: the texture's height. -/
def Entity.height (e : Entity) : ℚ := e.texHeight

/-- `Entity::fix_position` from `src/main.rs`, lines 21-28. -/
def Entity.fix_position (e : Entity) : Entity :=
  let max_y := WINDOW_HEIGHT - e.height
  if e.position.y > max_y then
    { e with position := { e.position with y := max_y } }
  else if e.position.y < 0 then
    { e with position := { e.position with y := 0 } }
  else
    e

/-- An axis-aligned rectangle, as `tetra::graphics::Rectangle`. -/
structure Rectangle where
  x : ℚ
  y : ℚ
  width : ℚ
  height : ℚ
deriving DecidableEq

/-- Modelled from the spec: the rectangle-intersection test is supplied by the
external graphics library (`Rectangle::intersects`, "rectangle-intersection
tests" in the spec); it is the standard strict axis-aligned overlap test. -/
def Rectangle.intersects (a b : Rectangle) : Bool :=
  decide (a.x < b.x + b.width) && decide (b.x < a.x + a.width) &&
  decide (a.y < b.y + b.height) && decide (b.y < a.y + a.height)

/-- `Entity::bounds` from `src/main.rs`, lines 38-45. -/
def Entity.bounds (e : Entity) : Rectangle :=
  { x := e.position.x, y := e.position.y, width := e.width, height := e.height }

/-- `Entity::centre` from `src/main.rs`, lines 47-52. -/
def Entity.centre (e : Entity) : Vec2 :=
  { x := e.position.x + e.width / 2, y := e.position.y + e.height / 2 }

/-- `GameState` from `src/main.rs`. The `Font` field never influences the
game logic (it is only cloned into the rendered text), and a rendered `Text`
is modelled by its string content. -/
structure GameState where
  player1 : Entity
  player2 : Entity
  ball : Entity
  end_text : Option String
deriving DecidableEq

/-- The per-frame keyboard state queried by `update`: whether each of the
four control keys (W, S, Up, Down) is down this frame. -/
structure Input where
  keyW : Bool
  keyS : Bool
  keyUp : Bool
  keyDown : Bool
deriving DecidableEq

/-- One paddle's movement phase of `GameState::update` (lines 101-107 for
player 1, lines 109-115 for player 2): move up and/or down by
`PADDLE_SPEED` according to the two keys, then `fix_position`. -/
def paddleStep (up down : Bool) (p : Entity) : Entity :=
  let p1 := if up then { p with position := { p.position with y := p.position.y - PADDLE_SPEED } } else p
  let p2 := if down then { p1 with position := { p1.position with y := p1.position.y + PADDLE_SPEED } } else p1
  p2.fix_position

/-- The ball-movement step of `GameState::update`, line 117:
`self.ball.position += self.ball.velocity`. -/
def movedBall (b : Entity) : Entity :=
  { b with position := { x := b.position.x + b.velocity.x, y := b.position.y + b.velocity.y } }

/-- The `paddle_hit` computation of `GameState::update`, lines 119-126:
the ball's bounds are tested against player 1 first, then player 2. -/
def hitPaddle (p1 p2 ball : Entity) : Option Entity :=
  if ball.bounds.intersects p1.bounds then some p1
  else if ball.bounds.intersects p2.bounds then some p2
  else none

/-- The collision response of `GameState::update`, lines 128-138: flip and
accelerate the horizontal velocity, then apply spin to the vertical one. -/
def collide (paddle ball : Entity) : Entity :=
  let b1 := { ball with velocity := { ball.velocity with x := -(ball.velocity.x + BALL_ACC * signum ball.velocity.x) } }
  let offset := (paddle.centre.y - b1.centre.y) / paddle.height
  { b1 with velocity := { b1.velocity with y := b1.velocity.y + PADDLE_SPIN * -offset } }

/-- The whole collision phase of `GameState::update`, lines 119-138: apply
the collision response exactly when a paddle is hit. -/
def ballCollisionStep (p1 p2 ball : Entity) : Entity :=
  match hitPaddle p1 p2 ball with
  | some paddle => collide paddle ball
  | none => ball

/-- The wall-bounce phase of `GameState::update`, lines 140-142: reverse the
vertical velocity when the ball touches the top or bottom edge. -/
def wallBounce (ball : Entity) : Entity :=
  if ball.position.y ≤ 0 ∨ ball.position.y + ball.height ≥ WINDOW_HEIGHT then
    { ball with velocity := { ball.velocity with y := -ball.velocity.y } }
  else
    ball

/-- The win-detection phase of `GameState::update`, lines 144-148, producing
the new `end_text` (which was `none` on entry to this phase). -/
def winCheck (ball : Entity) : Option String :=
  if ball.position.x < 0 then some "Player 2 win!"
  else if ball.position.x > WINDOW_WIDTH then some "Player 1 win!"
  else none

/-- `GameState::update` from `src/main.rs`, lines 96-151, composed of the
phase functions above in the source's order. -/
def GameState.update (st : GameState) (inp : Input) : GameState :=
  if st.end_text.isSome then st
  else
    let p1 := paddleStep inp.keyW inp.keyS st.player1
    let p2 := paddleStep inp.keyUp inp.keyDown st.player2
    let ball := movedBall st.ball
    let ball2 := ballCollisionStep p1 p2 ball
    let ball3 := wallBounce ball2
    { player1 := p1, player2 := p2, ball := ball3, end_text := winCheck ball3 }

/-- The paddle `GameState::update` collides the ball with this frame, if any:
`paddle_hit` evaluated on the post-movement paddles and ball. -/
def GameState.hitPaddle? (st : GameState) (inp : Input) : Option Entity :=
  hitPaddle (paddleStep inp.keyW inp.keyS st.player1)
    (paddleStep inp.keyUp inp.keyDown st.player2) (movedBall st.ball)

/-- The ball after the movement step and any collision response of this
frame's `update`, before the wall bounce. -/
def GameState.ballAfterCollision (st : GameState) (inp : Input) : Entity :=
  ballCollisionStep (paddleStep inp.keyW inp.keyS st.player1)
    (paddleStep inp.keyUp inp.keyDown st.player2) (movedBall st.ball)

/-! Structural lemmas about the phase functions. -/

theorem fix_position_x (e : Entity) : e.fix_position.position.x = e.position.x := by
  simp only [Entity.fix_position]
  split
  · rfl
  · split <;> rfl

theorem fix_position_velocity (e : Entity) : e.fix_position.velocity = e.velocity := by
  simp only [Entity.fix_position]
  split
  · rfl
  · split <;> rfl

theorem fix_position_texWidth (e : Entity) : e.fix_position.texWidth = e.texWidth := by
  simp only [Entity.fix_position]
  split
  · rfl
  · split <;> rfl

theorem fix_position_texHeight (e : Entity) : e.fix_position.texHeight = e.texHeight := by
  simp only [Entity.fix_position]
  split
  · rfl
  · split <;> rfl

theorem paddleStep_x (u d : Bool) (p : Entity) :
    (paddleStep u d p).position.x = p.position.x := by
  simp only [paddleStep]
  rw [fix_position_x]
  cases u <;> cases d <;> rfl

theorem paddleStep_velocity (u d : Bool) (p : Entity) :
    (paddleStep u d p).velocity = p.velocity := by
  simp only [paddleStep]
  rw [fix_position_velocity]
  cases u <;> cases d <;> rfl

theorem movedBall_velocity (b : Entity) : (movedBall b).velocity = b.velocity := rfl

theorem movedBall_position_x (b : Entity) :
    (movedBall b).position.x = b.position.x + b.velocity.x := rfl

theorem collide_position (p b : Entity) : (collide p b).position = b.position := rfl

theorem collide_texHeight (p b : Entity) : (collide p b).texHeight = b.texHeight := rfl

theorem collide_velocity_x (p b : Entity) :
    (collide p b).velocity.x = -(b.velocity.x + BALL_ACC * signum b.velocity.x) := rfl

theorem collide_velocity_y (p b : Entity) :
    (collide p b).velocity.y =
      b.velocity.y + PADDLE_SPIN * -((p.centre.y - b.centre.y) / p.height) := rfl

theorem ballCollisionStep_position (p1 p2 b : Entity) :
    (ballCollisionStep p1 p2 b).position = b.position := by
  unfold ballCollisionStep
  cases hitPaddle p1 p2 b <;> rfl

theorem ballCollisionStep_texHeight (p1 p2 b : Entity) :
    (ballCollisionStep p1 p2 b).texHeight = b.texHeight := by
  unfold ballCollisionStep
  cases hitPaddle p1 p2 b <;> rfl

theorem wallBounce_position (b : Entity) : (wallBounce b).position = b.position := by
  unfold wallBounce
  split <;> rfl

theorem wallBounce_velocity_x (b : Entity) : (wallBounce b).velocity.x = b.velocity.x := by
  unfold wallBounce
  split <;> rfl

theorem update_playing (st : GameState) (inp : Input) (h : st.end_text = none) :
    st.update inp =
      { player1 := paddleStep inp.keyW inp.keyS st.player1,
        player2 := paddleStep inp.keyUp inp.keyDown st.player2,
        ball := wallBounce (st.ballAfterCollision inp),
        end_text := winCheck (wallBounce (st.ballAfterCollision inp)) } := by
  unfold GameState.update
  rw [h]
  rfl

theorem ballAfterCollision_position (st : GameState) (inp : Input) :
    (st.ballAfterCollision inp).position = (movedBall st.ball).position := by
  unfold GameState.ballAfterCollision
  exact ballCollisionStep_position _ _ _

theorem update_end_text (st : GameState) (inp : Input) (h : st.end_text = none) :
    (st.update inp).end_text = winCheck (wallBounce (st.ballAfterCollision inp)) := by
  rw [update_playing st inp h]

theorem update_ball (st : GameState) (inp : Input) (h : st.end_text = none) :
    (st.update inp).ball = wallBounce (st.ballAfterCollision inp) := by
  rw [update_playing st inp h]

theorem update_player1 (st : GameState) (inp : Input) (h : st.end_text = none) :
    (st.update inp).player1 = paddleStep inp.keyW inp.keyS st.player1 := by
  rw [update_playing st inp h]

theorem update_player2 (st : GameState) (inp : Input) (h : st.end_text = none) :
    (st.update inp).player2 = paddleStep inp.keyUp inp.keyDown st.player2 := by
  rw [update_playing st inp h]

theorem winCheck_eq_p1 (b : Entity) :
    winCheck b = some "Player 1 win!" ↔ b.position.x > WINDOW_WIDTH := by
  unfold winCheck
  split_ifs with h1 h2
  · constructor
    · intro hc
      exact absurd (Option.some.inj hc) (by decide)
    · intro hx
      have hw : (0:ℚ) < WINDOW_WIDTH := by norm_num [WINDOW_WIDTH]
      exact absurd h1 (by linarith)
  · exact ⟨fun _ => h2, fun _ => rfl⟩
  · constructor
    · intro hc
      exact hc.elim
    · intro hx
      exact absurd hx h2

theorem winCheck_eq_p2 (b : Entity) (h : b.position.x < 0) :
    winCheck b = some "Player 2 win!" := by
  unfold winCheck
  rw [if_pos h]

theorem hit_velocity_x (st : GameState) (inp : Input) (h : st.end_text = none)
    (p : Entity) (hp : st.hitPaddle? inp = some p) :
    (st.update inp).ball.velocity.x =
      -(st.ball.velocity.x + BALL_ACC * signum st.ball.velocity.x) := by
  rw [update_ball st inp h, wallBounce_velocity_x]
  unfold GameState.hitPaddle? at hp
  unfold GameState.ballAfterCollision ballCollisionStep
  rw [hp]
  rfl

theorem abs_flip_acc_gt (v : ℚ) : |(-(v + BALL_ACC * signum v))| > |v| := by
  simp only [signum, BALL_ACC]
  split_ifs with hv
  · have hlt : v + 1/20 * (-1) < 0 := by linarith
    rw [abs_neg, abs_of_neg hlt, abs_of_neg hv]
    linarith
  · have hge : 0 ≤ v := not_lt.mp hv
    have hpos : 0 < v + 1/20 * 1 := by linarith
    rw [abs_neg, abs_of_pos hpos, abs_of_nonneg hge]
    linarith

/-! Concrete states used by the witnesses and the counterexample. -/

/-- The frame input with no key held down. -/
def noKeys : Input := ⟨false, false, false, false⟩

/-- The frame input with all four control keys held down. -/
def allKeys : Input := ⟨true, true, true, true⟩

/-- A playing state whose ball (width 20) will cross the right window edge
partially this frame: it moves from x = 600 to x = 630, so its right edge
reaches 650 > 640 while its left edge stays at 630 ≤ 640. -/
def cexC1 : GameState :=
  { player1 := { texWidth := 16, texHeight := 64, position := ⟨16, 0⟩, velocity := ⟨0, 0⟩ },
    player2 := { texWidth := 16, texHeight := 64, position := ⟨608, 300⟩, velocity := ⟨0, 0⟩ },
    ball := { texWidth := 20, texHeight := 20, position := ⟨600, 100⟩, velocity := ⟨30, 0⟩ },
    end_text := none }

/-- A playing state whose ball will overlap player 1's paddle after moving
with velocity `(-5, 0)`. -/
def collideSt : GameState :=
  { player1 := { texWidth := 16, texHeight := 64, position := ⟨16, 200⟩, velocity := ⟨0, 0⟩ },
    player2 := { texWidth := 16, texHeight := 64, position := ⟨608, 300⟩, velocity := ⟨0, 0⟩ },
    ball := { texWidth := 16, texHeight := 16, position := ⟨30, 220⟩, velocity := ⟨-5, 0⟩ },
    end_text := none }

/-- A state that already shows an end-of-game message. -/
def endedSt : GameState :=
  { player1 := { texWidth := 16, texHeight := 64, position := ⟨16, 200⟩, velocity := ⟨0, 0⟩ },
    player2 := { texWidth := 16, texHeight := 64, position := ⟨608, 300⟩, velocity := ⟨0, 0⟩ },
    ball := { texWidth := 16, texHeight := 16, position := ⟨300, 220⟩, velocity := ⟨-5, 2⟩ },
    end_text := some "Player 1 win!" }

/-- A playing state whose ball reaches the bottom edge this frame. -/
def bounceSt : GameState :=
  { player1 := { texWidth := 16, texHeight := 64, position := ⟨16, 200⟩, velocity := ⟨0, 0⟩ },
    player2 := { texWidth := 16, texHeight := 64, position := ⟨608, 300⟩, velocity := ⟨0, 0⟩ },
    ball := { texWidth := 16, texHeight := 16, position := ⟨300, 470⟩, velocity := ⟨0, 10⟩ },
    end_text := none }

/-- A playing state whose ball crosses the left window edge this frame. -/
def p2winSt : GameState :=
  { player1 := { texWidth := 16, texHeight := 64, position := ⟨16, 0⟩, velocity := ⟨0, 0⟩ },
    player2 := { texWidth := 16, texHeight := 64, position := ⟨608, 300⟩, velocity := ⟨0, 0⟩ },
    ball := { texWidth := 16, texHeight := 16, position := ⟨3, 200⟩, velocity := ⟨-5, 0⟩ },
    end_text := none }

/-- A playing state whose ball crosses the right window edge (left edge past
640) this frame. -/
def p1winSt : GameState :=
  { player1 := { texWidth := 16, texHeight := 64, position := ⟨16, 0⟩, velocity := ⟨0, 0⟩ },
    player2 := { texWidth := 16, texHeight := 64, position := ⟨608, 300⟩, velocity := ⟨0, 0⟩ },
    ball := { texWidth := 16, texHeight := 16, position := ⟨638, 200⟩, velocity := ⟨5, 0⟩ },
    end_text := none }

/-- A playing state whose ball overlaps player 1's paddle while having
horizontal velocity exactly zero. -/
def zeroVxSt : GameState :=
  { player1 := { texWidth := 16, texHeight := 64, position := ⟨16, 200⟩, velocity := ⟨0, 0⟩ },
    player2 := { texWidth := 16, texHeight := 64, position := ⟨608, 300⟩, velocity := ⟨0, 0⟩ },
    ball := { texWidth := 16, texHeight := 16, position := ⟨20, 220⟩, velocity := ⟨0, 0⟩ },
    end_text := none }

/-- A paddle-sized entity placed below the bottom window edge. -/
def clampEnt : Entity :=
  { texWidth := 16, texHeight := 64, position := ⟨16, 500⟩, velocity := ⟨0, 0⟩ }

theorem collideSt_hit :
    collideSt.hitPaddle? noKeys = some (paddleStep false false collideSt.player1) := by
  norm_num [GameState.hitPaddle?, hitPaddle, Entity.bounds, Rectangle.intersects, movedBall,
    Entity.width, Entity.height, paddleStep, Entity.fix_position, collideSt, noKeys,
    WINDOW_HEIGHT, PADDLE_SPEED]

theorem zeroVxSt_hit :
    zeroVxSt.hitPaddle? noKeys = some (paddleStep false false zeroVxSt.player1) := by
  norm_num [GameState.hitPaddle?, hitPaddle, Entity.bounds, Rectangle.intersects, movedBall,
    Entity.width, Entity.height, paddleStep, Entity.fix_position, zeroVxSt, noKeys,
    WINDOW_HEIGHT, PADDLE_SPEED]

/-! The claims. -/

/-- C1, counterexample to the claim as stated: in the playing state `cexC1`
the post-movement ball has right edge `630 + 20 = 650 > 640`, yet `update`
does not set `end_text` to "Player 1 win!", because the code compares only
`position.x` (the left edge, here `630`) against `WINDOW_WIDTH`. -/
theorem C1_right_edge_counterexample :
    cexC1.end_text = none ∧
    (movedBall cexC1.ball).position.x + (movedBall cexC1.ball).width > WINDOW_WIDTH ∧
    ¬((cexC1.update noKeys).end_text = some "Player 1 win!") := by
  refine ⟨rfl, ?_, ?_⟩
  · norm_num [movedBall, Entity.width, WINDOW_WIDTH, cexC1]
  · have hnone : (cexC1.update noKeys).end_text = none := by
      norm_num [GameState.update, cexC1, noKeys, paddleStep, Entity.fix_position, movedBall,
        ballCollisionStep, hitPaddle, Entity.bounds, Rectangle.intersects, collide, wallBounce,
        winCheck, Entity.width, Entity.height, Entity.centre, signum,
        WINDOW_HEIGHT, WINDOW_WIDTH, PADDLE_SPEED, PADDLE_SPIN, BALL_ACC]
    rw [hnone]
    exact fun hc => Option.noConfusion hc

/-- C1 (amended): for every update call made in the PLAYING state, `update`
sets `end_text` to "Player 1 win!" exactly when, after the ball-movement
step, the ball's LEFT edge exceeds the window width
(`ball.position.x > 640`); the code never consults the ball's width here. -/
theorem C1_player1_win_iff (st : GameState) (inp : Input) (h : st.end_text = none) :
    (st.update inp).end_text = some "Player 1 win!" ↔
      st.ball.position.x + st.ball.velocity.x > WINDOW_WIDTH := by
  rw [update_end_text st inp h, winCheck_eq_p1, wallBounce_position,
    ballAfterCollision_position, movedBall_position_x]

/-- Witness for C1: in `p1winSt` the ball moves from `x = 638` to `x = 643`,
its left edge passes `640`, and `update` reports "Player 1 win!". -/
theorem C1_witness :
    p1winSt.end_text = none ∧
    p1winSt.ball.position.x + p1winSt.ball.velocity.x > WINDOW_WIDTH ∧
    (p1winSt.update noKeys).end_text = some "Player 1 win!" := by
  have hx : p1winSt.ball.position.x + p1winSt.ball.velocity.x > WINDOW_WIDTH := by
    norm_num [p1winSt, WINDOW_WIDTH]
  exact ⟨rfl, hx, (C1_player1_win_iff p1winSt noKeys rfl).mpr hx⟩

/-- C2: once `end_text` is present (ENDED state), every call to `update`
returns the state completely unchanged, whatever the keyboard input. -/
theorem C2_ended_noop (st : GameState) (inp : Input) (h : st.end_text.isSome = true) :
    st.update inp = st := by
  unfold GameState.update
  rw [if_pos h]

/-- Witness for C2: the ended state `endedSt` is fixed by `update` even with
all four keys held down. -/
theorem C2_witness : endedSt.end_text.isSome = true ∧ endedSt.update allKeys = endedSt :=
  ⟨rfl, C2_ended_noop endedSt allKeys rfl⟩

/-- C3: whenever `update` detects a ball-paddle collision, the new horizontal
velocity of the ball equals `-(old_vx + BALL_ACC * signum old_vx)`, with
`BALL_ACC = 0.05`; the `-5.0 → 5.05` instance is checked in the witness. -/
theorem C3_collision_velocity (st : GameState) (inp : Input) (h : st.end_text = none)
    (p : Entity) (hp : st.hitPaddle? inp = some p) :
    (st.update inp).ball.velocity.x =
      -(st.ball.velocity.x + BALL_ACC * signum st.ball.velocity.x) :=
  hit_velocity_x st inp h p hp

/-- Witness for C3: in `collideSt` the ball hits player 1's paddle with
`velocity.x = -5` and leaves with `velocity.x = 101/20 = 5.05`. -/
theorem C3_witness :
    collideSt.ball.velocity.x = -5 ∧ (collideSt.update noKeys).ball.velocity.x = 101/20 := by
  refine ⟨rfl, ?_⟩
  rw [C3_collision_velocity collideSt noKeys rfl _ collideSt_hit]
  norm_num [collideSt, BALL_ACC, signum]

/-- C4: for every ball-paddle collision processed by `update`, the magnitude
of the ball's horizontal velocity strictly increases. -/
theorem C4_collision_speed_increases (st : GameState) (inp : Input)
    (h : st.end_text = none) (p : Entity) (hp : st.hitPaddle? inp = some p) :
    |(st.update inp).ball.velocity.x| > |st.ball.velocity.x| := by
  rw [hit_velocity_x st inp h p hp]
  exact abs_flip_acc_gt _

/-- Witness for C4: in the collision of `collideSt`, `|5.05| > |-5|`. -/
theorem C4_witness :
    |(collideSt.update noKeys).ball.velocity.x| > |collideSt.ball.velocity.x| :=
  C4_collision_speed_increases collideSt noKeys rfl _ collideSt_hit

/-- C5: in every PLAYING update, writing `b` for the ball after movement and
any collision response: if `b.position.y ≤ 0` or
`b.position.y + b.height ≥ 480` then the final vertical velocity is exactly
`-b.velocity.y` and the position is left uncorrected; otherwise the vertical
velocity is unchanged by this step. -/
theorem C5_wall_bounce (st : GameState) (inp : Input) (h : st.end_text = none) :
    ((st.ballAfterCollision inp).position.y ≤ 0 ∨
        (st.ballAfterCollision inp).position.y + (st.ballAfterCollision inp).height ≥
          WINDOW_HEIGHT →
      (st.update inp).ball.velocity.y = -(st.ballAfterCollision inp).velocity.y ∧
        (st.update inp).ball.position = (st.ballAfterCollision inp).position) ∧
    (¬((st.ballAfterCollision inp).position.y ≤ 0 ∨
        (st.ballAfterCollision inp).position.y + (st.ballAfterCollision inp).height ≥
          WINDOW_HEIGHT) →
      (st.update inp).ball.velocity.y = (st.ballAfterCollision inp).velocity.y) := by
  rw [update_ball st inp h]
  constructor
  · intro hc
    unfold wallBounce
    rw [if_pos hc]
    exact ⟨rfl, rfl⟩
  · intro hc
    unfold wallBounce
    rw [if_neg hc]

/-- Witness for C5: in `bounceSt` the ball reaches the bottom edge
(`480 + 16 ≥ 480`), its vertical velocity is negated, and its position keeps
the overshoot. -/
theorem C5_witness :
    ((bounceSt.ballAfterCollision noKeys).position.y +
        (bounceSt.ballAfterCollision noKeys).height ≥ WINDOW_HEIGHT) ∧
    (bounceSt.update noKeys).ball.velocity.y =
      -(bounceSt.ballAfterCollision noKeys).velocity.y ∧
    (bounceSt.update noKeys).ball.position = (bounceSt.ballAfterCollision noKeys).position := by
  have hcond : (bounceSt.ballAfterCollision noKeys).position.y +
      (bounceSt.ballAfterCollision noKeys).height ≥ WINDOW_HEIGHT := by
    norm_num [GameState.ballAfterCollision, ballCollisionStep, hitPaddle, Entity.bounds,
      Rectangle.intersects, movedBall, paddleStep, Entity.fix_position, Entity.width,
      Entity.height, bounceSt, noKeys, WINDOW_HEIGHT, PADDLE_SPEED]
  exact ⟨hcond, (C5_wall_bounce bounceSt noKeys rfl).1 (Or.inr hcond)⟩

/-- C6: whenever `update` detects a collision with paddle `p`, the collision
response increments the ball's vertical velocity by exactly
`PADDLE_SPIN * -((p.centre.y - ball.centre.y) / p.height)`, both centres
taken at the post-movement positions. -/
theorem C6_spin (st : GameState) (inp : Input) (h : st.end_text = none)
    (p : Entity) (hp : st.hitPaddle? inp = some p) :
    (st.ballAfterCollision inp).velocity.y =
      st.ball.velocity.y +
        PADDLE_SPIN * -((p.centre.y - (movedBall st.ball).centre.y) / p.height) := by
  unfold GameState.hitPaddle? at hp
  unfold GameState.ballAfterCollision ballCollisionStep
  rw [hp]
  rfl

/-- Witness for C6: in `collideSt` the paddle centre is at `y = 232`, the
moved ball's centre at `y = 228`, so the spin adds
`4 * -((232 - 228) / 64) = -1/4` to the vertical velocity `0`. -/
theorem C6_witness : (collideSt.ballAfterCollision noKeys).velocity.y = -(1/4) := by
  rw [C6_spin collideSt noKeys rfl _ collideSt_hit]
  norm_num [collideSt, paddleStep, Entity.fix_position, movedBall, Entity.centre,
    Entity.width, Entity.height, PADDLE_SPIN, WINDOW_HEIGHT, PADDLE_SPEED, noKeys]

/-- C7: for every entity of height at most 480 and any starting position,
`fix_position` lands the vertical position in `[0, 480 - height]` and never
changes the horizontal position. -/
theorem C7_fix_position_clamps (e : Entity) (h : e.height ≤ WINDOW_HEIGHT) :
    0 ≤ e.fix_position.position.y ∧
      e.fix_position.position.y ≤ WINDOW_HEIGHT - e.height ∧
      e.fix_position.position.x = e.position.x := by
  have hm : (0:ℚ) ≤ WINDOW_HEIGHT - e.height := by linarith
  simp only [Entity.fix_position]
  split_ifs with h1 h2
  · exact ⟨hm, le_refl _, rfl⟩
  · exact ⟨le_refl 0, hm, rfl⟩
  · exact ⟨not_lt.mp h2, not_lt.mp h1, rfl⟩

/-- Witness for C7: the paddle-sized entity `clampEnt` starts at `y = 500`
and is clamped into the window. -/
theorem C7_witness :
    clampEnt.height ≤ WINDOW_HEIGHT ∧
    (0 ≤ clampEnt.fix_position.position.y ∧
      clampEnt.fix_position.position.y ≤ WINDOW_HEIGHT - clampEnt.height ∧
      clampEnt.fix_position.position.x = clampEnt.position.x) :=
  ⟨by norm_num [clampEnt, Entity.height, WINDOW_HEIGHT],
    C7_fix_position_clamps clampEnt (by norm_num [clampEnt, Entity.height, WINDOW_HEIGHT])⟩

/-- C8: in every PLAYING update whose ball-movement step takes the ball's
left edge below zero, `end_text` becomes "Player 2 win!", and the ball's
post-update position is exactly the post-movement position (no later step
moves the ball within the same call). -/
theorem C8_player2_win (st : GameState) (inp : Input) (h : st.end_text = none)
    (hx : st.ball.position.x + st.ball.velocity.x < 0) :
    (st.update inp).end_text = some "Player 2 win!" ∧
      (st.update inp).ball.position = (movedBall st.ball).position := by
  constructor
  · rw [update_end_text st inp h]
    apply winCheck_eq_p2
    rw [wallBounce_position, ballAfterCollision_position, movedBall_position_x]
    exact hx
  · rw [update_ball st inp h, wallBounce_position, ballAfterCollision_position]

/-- Witness for C8: in `p2winSt` the ball moves from `x = 3` to `x = -2 < 0`
and player 2 wins. -/
theorem C8_witness :
    p2winSt.ball.position.x + p2winSt.ball.velocity.x < 0 ∧
    (p2winSt.update noKeys).end_text = some "Player 2 win!" ∧
    (p2winSt.update noKeys).ball.position = (movedBall p2winSt.ball).position := by
  have hx : p2winSt.ball.position.x + p2winSt.ball.velocity.x < 0 := by
    norm_num [p2winSt]
  exact ⟨hx, C8_player2_win p2winSt noKeys rfl hx⟩

/-- C9: a collision processed while the ball's horizontal velocity is exactly
zero leaves it with horizontal velocity `-BALL_ACC = -0.05` (the model of
Rust's `signum`, which returns `1.0` on `+0.0`), never zero. -/
theorem C9_zero_velocity_collision (st : GameState) (inp : Input) (h : st.end_text = none)
    (p : Entity) (hp : st.hitPaddle? inp = some p) (hv : st.ball.velocity.x = 0) :
    (st.update inp).ball.velocity.x = -BALL_ACC ∧ (st.update inp).ball.velocity.x ≠ 0 := by
  have hx := hit_velocity_x st inp h p hp
  rw [hv] at hx
  rw [hx]
  norm_num [signum, BALL_ACC]

/-- Witness for C9: in `zeroVxSt` the motionless-in-x ball overlaps player
1's paddle and leaves the collision with `velocity.x = -1/20`. -/
theorem C9_witness :
    zeroVxSt.ball.velocity.x = 0 ∧ (zeroVxSt.update noKeys).ball.velocity.x = -BALL_ACC :=
  ⟨rfl, (C9_zero_velocity_collision zeroVxSt noKeys rfl _ zeroVxSt_hit rfl).1⟩

/-- C10: every call to `update` (in either state) keeps both paddles'
horizontal positions and both paddles' velocity vectors unchanged: the
paddles move only vertically, and only the ball's velocity is ever written. -/
theorem C10_paddles_only_vertical (st : GameState) (inp : Input) :
    (st.update inp).player1.position.x = st.player1.position.x ∧
    (st.update inp).player2.position.x = st.player2.position.x ∧
    (st.update inp).player1.velocity = st.player1.velocity ∧
    (st.update inp).player2.velocity = st.player2.velocity := by
  by_cases h : st.end_text.isSome = true
  · unfold GameState.update
    rw [if_pos h]
    exact ⟨rfl, rfl, rfl, rfl⟩
  · have hn : st.end_text = none := by
      cases he : st.end_text
      · rfl
      · rw [he] at h
        exact absurd rfl h
    rw [update_player1 st inp hn, update_player2 st inp hn]
    exact ⟨paddleStep_x _ _ _, paddleStep_x _ _ _,
      paddleStep_velocity _ _ _, paddleStep_velocity _ _ _⟩

end Pong
